import Mathlib

/-!
Verification of the `rustmodes` typestate radio state machine.

The development shallowly embeds the Rust sources:
  * `Lib`       — `src/lib.rs`: the phantom-typed `Radio<State>` machine, its
                  `RadioData` payload, the `RadioError<T>` error-with-payload
                  wrapper, the transitions `standby`, `configure`, `operate`,
                  `enter_standby`, `send_data`, and the test-module retry loop
                  `try_enter_standby_forever`.
  * `RadioRs`   — `src/radio.rs`: the variant whose `Configured` state carries
                  the applied `ConfigureData` as a real state value.
  * `FutureHelper` — `src/future_helper.rs`: `FirstOrSecond` and
                  `wait_for_one_to_complete`, modelled over poll functions
                  (a future is `Nat → Option α`, giving its result at the
                  first poll round where it is ready; `futures::future::select`
                  polls its left operand first in every round).

Machine integers: `init_count` and `_number` are `u32` in the source; every
operation only ever subtracts 1 under a positivity guard, so plain `Nat`
with guarded subtraction is an exact model (no wrap-around is reachable).
The `f64` field `_other` is only ever moved, never inspected or computed
with, so it is represented by its IEEE-754 bit pattern as a `Nat`.
-/

namespace Lib

/-- The four modes of the radio, one per zero-sized state type in `lib.rs`. -/
inductive Mode where
  | Uninitialized
  | Standby
  | Configured
  | Operate
deriving DecidableEq, Repr

/-- `RadioData` from `lib.rs`: the payload retained/moved from state to state.
`_other` holds the bit pattern of the `f64` field (the source never computes
with it, only moves it). -/
structure RadioData where
  init_count : Nat
  _number : Nat
  _other : Nat
deriving DecidableEq, Repr

/-- IEEE-754 double bit pattern of the literal `0.14159` used by `RadioData::new`. -/
def otherBits : Nat := 0x3fc21f9f01b866e4

/-- `RadioData::new(count)`. -/
def RadioData.new (count : Nat) : RadioData :=
  { init_count := count, _number := 3, _other := otherBits }

/-- `Radio<State>`: the payload together with a compile-time mode tag
(the `PhantomData<State>` field has no runtime content, so the Lean
structure is indexed by the mode and holds just the data). -/
structure Radio (State : Mode) where
  data : RadioData
deriving DecidableEq, Repr

/-- `RadioError<T>`: an error message together with the radio that caused it,
returned so that a failed ownership-consuming transition gives the device
back.  The `anyhow::Error` is modelled by its human-readable message. -/
structure RadioError (T : Type) where
  error : String
  radio : T
deriving DecidableEq, Repr

/-- `Radio::<Uninitialized>::new()`. -/
def Radio.new : Radio .Uninitialized :=
  { data := RadioData.new 0 }

/-- `Radio::<Uninitialized>::new_init(count)`. -/
def Radio.new_init (count : Nat) : Radio .Uninitialized :=
  { data := RadioData.new count }

/-- `Radio::<Uninitialized>::standby`: fails (decrementing `init_count` and
returning the radio inside the error) while `init_count > 0`, otherwise
moves the data unchanged into a `Standby`-tagged radio. -/
def Radio.standby (r : Radio .Uninitialized) :
    Except (RadioError (Radio .Uninitialized)) (Radio .Standby) :=
  if r.data.init_count > 0 then
    .error { error := "Radio not ready to configure",
             radio := { data := { r.data with init_count := r.data.init_count - 1 } } }
  else
    .ok { data := r.data }

/-- `ConfigureData` from `lib.rs` (a unit struct). -/
structure ConfigureData where
deriving DecidableEq, Repr

/-- `Radio::<Standby>::configure`: always succeeds, moving the data unchanged
(the configuration argument is ignored in `lib.rs`). -/
def Radio.configure (r : Radio .Standby) (_configdata : ConfigureData) :
    Except (RadioError (Radio .Standby)) (Radio .Configured) :=
  .ok { data := r.data }

/-- `Radio::<Configured>::operate`: always succeeds, moving the data unchanged. -/
def Radio.operate (r : Radio .Configured) :
    Except (RadioError (Radio .Configured)) (Radio .Operate) :=
  .ok { data := r.data }

/-- `Radio::<Configured>::enter_standby`: infallible, moves the data unchanged. -/
def Radio.enter_standby (r : Radio .Configured) : Radio .Standby :=
  { data := r.data }

/-- `Radio::<Operate>::enter_standby`: infallible, moves the data unchanged.
(Lean cannot overload one name for both `impl` blocks, hence the suffix.) -/
def Radio.enter_standby_from_operate (r : Radio .Operate) : Radio .Standby :=
  { data := r.data }

/-- `Radio::<Operate>::send_data`: borrows the radio (so the embedding takes
it and returns only the `Result<()>`), and unconditionally returns `Ok(())`. -/
def Radio.send_data (_r : Radio .Operate) (_data : List (Fin 256)) :
    Except String Unit :=
  .ok ()

/-- On a failed `standby` attempt the returned radio's `init_count` is exactly
one less than before the attempt. -/
theorem standby_error_count {r e} (h : Radio.standby r = .error e) :
    e.radio.data.init_count + 1 = r.data.init_count := by
  unfold Radio.standby at h
  split at h
  · next hc =>
    cases h
    simpa using Nat.succ_pred_eq_of_pos hc
  · exact Except.noConfusion h

/-- The retry loop `try_enter_standby_forever` from the `lib.rs` test module:
keep attempting `standby`, pulling the radio back out of the error on each
failure; terminates because each failed attempt strictly decreases
`init_count`. -/
def try_enter_standby_forever (radio : Radio .Uninitialized) : Radio .Standby :=
  match h : radio.standby with
  | .ok r => r
  | .error e => try_enter_standby_forever e.radio
termination_by radio.data.init_count
decreasing_by
  have := standby_error_count h
  omega

/-- The retry loop instrumented with a budget of `standby` attempts: `none`
means the budget was exhausted before an attempt succeeded.  Used to state
"exactly n failed attempts before success". -/
def loopFuel : Nat → Radio .Uninitialized → Option (Radio .Standby)
  | 0, _ => none
  | fuel + 1, r =>
    match r.standby with
    | .ok s => some s
    | .error e => loopFuel fuel e.radio

/-- A failed `standby` attempt yields exactly the original radio with
`init_count` decremented, and the fixed message. -/
theorem standby_error_radio {r e} (h : Radio.standby r = .error e) :
    e.error = "Radio not ready to configure" ∧
    e.radio = ⟨⟨r.data.init_count - 1, r.data._number, r.data._other⟩⟩ ∧
    0 < r.data.init_count := by
  unfold Radio.standby at h
  split at h
  · next hc =>
    cases h
    exact ⟨rfl, rfl, hc⟩
  · exact Except.noConfusion h

/-- A successful `standby` attempt happens exactly when `init_count = 0`
and moves the data unchanged. -/
theorem standby_ok_radio {r s} (h : Radio.standby r = .ok s) :
    s = ⟨r.data⟩ ∧ r.data.init_count = 0 := by
  unfold Radio.standby at h
  split at h
  · exact Except.noConfusion h
  · next hc =>
    cases h
    exact ⟨rfl, by omega⟩

/-- Closed form of the fuelled retry loop: starting from `init_count = c`,
`fuel ≤ c` attempts are too few (the loop is still failing), while any
larger budget succeeds with `init_count` at 0 and the rest of the payload
preserved. -/
theorem loopFuel_eq (fuel c a b : Nat) :
    loopFuel fuel ⟨⟨c, a, b⟩⟩ =
      if fuel ≤ c then none else some ⟨⟨0, a, b⟩⟩ := by
  induction fuel generalizing c with
  | zero => simp [loopFuel]
  | succ n ih =>
    rcases Nat.eq_zero_or_pos c with hc | hc
    · subst hc
      simp [loopFuel, Radio.standby]
    · have hs : Radio.standby ⟨⟨c, a, b⟩⟩ =
          .error { error := "Radio not ready to configure",
                   radio := ⟨⟨c - 1, a, b⟩⟩ } := by
        simp [Radio.standby, hc]
      have h1 : loopFuel (n + 1) ⟨⟨c, a, b⟩⟩ = loopFuel n ⟨⟨c - 1, a, b⟩⟩ := by
        simp [loopFuel, hs]
      rw [h1, ih]
      by_cases hn : n + 1 ≤ c
      · rw [if_pos (by omega), if_pos hn]
      · rw [if_neg (by omega), if_neg hn]

/-- Unfolding lemma for the retry loop: a successful attempt ends it. -/
theorem try_enter_standby_forever_ok {r s} (h : Radio.standby r = .ok s) :
    try_enter_standby_forever r = s := by
  rw [try_enter_standby_forever]
  split
  · next s2 h2 =>
    rw [h] at h2
    cases h2
    rfl
  · next e2 h2 =>
    rw [h] at h2
    exact Except.noConfusion h2

/-- Unfolding lemma for the retry loop: a failed attempt recurses on the
radio carried back in the error. -/
theorem try_enter_standby_forever_error {r e} (h : Radio.standby r = .error e) :
    try_enter_standby_forever r = try_enter_standby_forever e.radio := by
  rw [try_enter_standby_forever]
  split
  · next s2 h2 =>
    rw [h] at h2
    exact Except.noConfusion h2
  · next e2 h2 =>
    rw [h] at h2
    cases h2
    rfl

/-- Closed form of `try_enter_standby_forever`: it returns the Standby radio
whose `init_count` has counted down to 0, other payload fields preserved. -/
theorem try_enter_standby_forever_eq (c a b : Nat) :
    try_enter_standby_forever ⟨⟨c, a, b⟩⟩ = ⟨⟨0, a, b⟩⟩ := by
  induction c with
  | zero =>
    exact try_enter_standby_forever_ok (by simp [Radio.standby])
  | succ n ih =>
    rw [try_enter_standby_forever_error
      (show Radio.standby ⟨⟨n + 1, a, b⟩⟩ =
          .error { error := "Radio not ready to configure", radio := ⟨⟨n, a, b⟩⟩ } by
        simp [Radio.standby])]
    exact ih

end Lib

namespace RadioRs

/-- `RadioData` from `radio.rs` (same fields as in `lib.rs`). -/
structure RadioData where
  init_count : Nat
  _number : Nat
  _other : Nat
deriving DecidableEq, Repr

/-- `ConfigureData` from `radio.rs` (a unit struct). -/
structure ConfigureData where
deriving DecidableEq, Repr

/-- `Configured` state from `radio.rs`: unlike the `lib.rs` variant it is a
real value carrying the configuration that was applied. -/
structure Configured where
  config : ConfigureData
deriving DecidableEq, Repr

/-- `Standby` state from `radio.rs`. -/
structure Standby where
deriving DecidableEq, Repr

/-- `Radio<State>` from `radio.rs`: here `state` is a stored value, not a
phantom tag. -/
structure Radio (State : Type) where
  data : RadioData
  state : State
deriving DecidableEq, Repr

/-- Modelled from the spec: `ErrorPlus<T>` (aliased as `RadioError<T>` in
`radio.rs`) is referenced but not defined in the sources; per the spec's
Fallible-Transition Result it pairs a human-readable error message with the
carried-back value (`radio.rs` constructs it with fields `error` and
`other`). -/
structure ErrorPlus (T : Type) where
  error : String
  other : T

/-- `Radio::<Standby>::configure` from `radio.rs`: always succeeds, moving
the data unchanged and storing the configuration payload inside the
`Configured` state value. -/
def Radio.configure (r : Radio Standby) (configdata : ConfigureData) :
    Except (ErrorPlus (Radio Standby)) (Radio Configured) :=
  .ok { data := r.data, state := { config := configdata } }

end RadioRs

namespace FutureHelper

/-- A cooperative future, modelled by its poll behaviour: `f n = some a`
when the future is ready with output `a` at poll round `n`, and `f n = none`
when polling at round `n` returns Pending. -/
def Fut (α : Type) : Type :=
  Nat → Option α

/-- `FirstOrSecond` from `future_helper.rs`: which of the two raced futures
completed before the other, with its output. -/
inductive FirstOrSecond (A B : Type) where
  | First : A → FirstOrSecond A B
  | Second : B → FirstOrSecond A B
deriving DecidableEq, Repr

/-- One poll round of `futures::future::select(fut1, fut2)` as used by
`wait_for_one_to_complete`: the left operand is polled first; if it is
pending the right operand is polled; if both are pending the select itself
is pending at this round. -/
def selectPoll {A B : Type} (fut1 : Fut A) (fut2 : Fut B) (n : Nat) :
    Option (FirstOrSecond A B) :=
  match fut1 n with
  | some a => some (.First a)
  | none =>
    match fut2 n with
    | some b => some (.Second b)
    | none => none

/-- `wait_for_one_to_complete fut1 fut2 out` holds when the race resolves to
`out`: at the first poll round where the select is ready, its value is `out`
(all earlier rounds were pending). -/
def wait_for_one_to_complete {A B : Type} (fut1 : Fut A) (fut2 : Fut B)
    (out : FirstOrSecond A B) : Prop :=
  ∃ n, selectPoll fut1 fut2 n = some out ∧
    ∀ m, m < n → selectPoll fut1 fut2 m = none

/-- The future that completes immediately with output `a`. -/
def ready {A : Type} (a : A) : Fut A :=
  fun _ => some a

/-- The future that never completes. -/
def pending (A : Type) : Fut A :=
  fun _ => none

end FutureHelper

/-! Claim theorems. -/

namespace Lib

/-- C1: for every `n ≥ 0`, a device built with `new_init n` fails exactly
`n` consecutive `standby` attempts — a budget of `n` attempts is not enough
to reach Standby, while `n + 1` attempts succeed, yielding the Standby
device with `init_count` 0 and the rest of the payload intact; moreover
after any failed attempt the device inside the error has `init_count`
decremented by exactly 1 and every other payload field identical to the
pre-attempt device. -/
theorem new_init_fails_exactly_n_then_succeeds (n : Nat) :
    loopFuel n (Radio.new_init n) = none ∧
    loopFuel (n + 1) (Radio.new_init n) = some ⟨RadioData.new 0⟩ ∧
    ∀ d : Radio .Uninitialized,
      match d.standby with
      | .error e =>
          e.radio.data.init_count + 1 = d.data.init_count ∧
          e.radio.data._number = d.data._number ∧
          e.radio.data._other = d.data._other
      | .ok _ => True := by
  refine ⟨?_, ?_, ?_⟩
  · rw [show Radio.new_init n = ⟨⟨n, 3, otherBits⟩⟩ from rfl, loopFuel_eq]
    simp
  · rw [show Radio.new_init n = ⟨⟨n, 3, otherBits⟩⟩ from rfl, loopFuel_eq]
    simp [RadioData.new]
  · intro d
    cases hd : d.standby with
    | ok s => trivial
    | error e =>
      obtain ⟨-, hrad, hc⟩ := standby_error_radio hd
      simp [hrad]
      omega

/-- C2: `standby` returns the error variant exactly when `init_count > 0`
at the moment of the call; the error exposes the human-readable message
"Radio not ready to configure" and carries back the Uninitialized-mode
device with `init_count` decremented by 1 and the other payload fields
unchanged; a success happens exactly when `init_count = 0`. -/
theorem standby_error_iff_init_count_pos (d : Radio .Uninitialized) :
    match d.standby with
    | .error e =>
        0 < d.data.init_count ∧
        e.error = "Radio not ready to configure" ∧
        e.radio = ⟨⟨d.data.init_count - 1, d.data._number, d.data._other⟩⟩
    | .ok s => d.data.init_count = 0 ∧ s = ⟨d.data⟩ := by
  cases hd : d.standby with
  | error e =>
    obtain ⟨h1, h2, h3⟩ := standby_error_radio hd
    exact ⟨h3, h1, h2⟩
  | ok s =>
    obtain ⟨h1, h2⟩ := standby_ok_radio hd
    exact ⟨h2, h1⟩

/-- C3: `init_count` never increases under any operation: a failed `standby`
decreases it by exactly 1, a successful `standby` leaves it unchanged, and
`configure`, `operate`, both `enter_standby` transitions and `send_data`
leave it unchanged (`send_data` only borrows the device and returns no
device at all). -/
theorem init_count_never_increases :
    (∀ d : Radio .Uninitialized,
      match d.standby with
      | .ok s => s.data.init_count = d.data.init_count
      | .error e => e.radio.data.init_count + 1 = d.data.init_count) ∧
    (∀ (d : Radio .Standby) (c : ConfigureData),
      match d.configure c with
      | .ok r => r.data.init_count = d.data.init_count
      | .error _ => False) ∧
    (∀ d : Radio .Configured,
      match d.operate with
      | .ok r => r.data.init_count = d.data.init_count
      | .error _ => False) ∧
    (∀ d : Radio .Configured,
      d.enter_standby.data.init_count = d.data.init_count) ∧
    (∀ d : Radio .Operate,
      d.enter_standby_from_operate.data.init_count = d.data.init_count) ∧
    (∀ (d : Radio .Operate) (bytes : List (Fin 256)),
      d.send_data bytes = .ok ()) := by
  refine ⟨?_, fun d c => rfl, fun d => rfl, fun d => rfl, fun d => rfl,
    fun d bytes => rfl⟩
  intro d
  cases hd : d.standby with
  | ok s =>
    obtain ⟨hs, -⟩ := standby_ok_radio hd
    rw [hs]
  | error e =>
    exact standby_error_count hd

/-- C4: for every Standby device and every configuration input, composing
`configure`, `operate` and `enter_standby` (from Operate) yields a Standby
device whose payload fields `init_count`, `_number` and `_other` are
identical to those of the device that entered `configure`. -/
theorem round_trip_preserves_payload (d : Radio .Standby) (c : ConfigureData) :
    ∃ (d1 : Radio .Configured) (d2 : Radio .Operate),
      d.configure c = .ok d1 ∧ d1.operate = .ok d2 ∧
      d2.enter_standby_from_operate.data.init_count = d.data.init_count ∧
      d2.enter_standby_from_operate.data._number = d.data._number ∧
      d2.enter_standby_from_operate.data._other = d.data._other :=
  ⟨⟨d.data⟩, ⟨d.data⟩, rfl, rfl, rfl, rfl, rfl⟩

/-- C5: `configure` (for every Standby device and configuration payload) and
`operate` (for every Configured device) always return the success variant;
their error branch is unreachable. -/
theorem configure_operate_always_succeed :
    (∀ (d : Radio .Standby) (c : ConfigureData), ∃ r, d.configure c = .ok r) ∧
    (∀ d : Radio .Configured, ∃ r, d.operate = .ok r) :=
  ⟨fun d _ => ⟨⟨d.data⟩, rfl⟩, fun d => ⟨⟨d.data⟩, rfl⟩⟩

/-- C6: `enter_standby`, from Configured mode or from Operate mode, always
succeeds (both embeddings are total functions straight into a Standby
device, with no error outcome in their types) and leaves the whole carried
payload unchanged. -/
theorem enter_standby_always_succeeds_and_preserves_payload :
    (∀ d : Radio .Configured, d.enter_standby.data = d.data) ∧
    (∀ d : Radio .Operate, d.enter_standby_from_operate.data = d.data) :=
  ⟨fun _ => rfl, fun _ => rfl⟩

/-- C8: for every Uninitialized device, the retry driver
`try_enter_standby_forever` terminates with a Standby device: with
`init_count = n` it is still failing after a budget of `n` attempts and
succeeds within `n + 1` attempts (exactly `n` failed attempts), returning
the device produced by the retry loop, whose payload has counted down to
`init_count = 0` with the other fields preserved. -/
theorem retry_driver_terminates_after_init_count_failures
    (d : Radio .Uninitialized) :
    loopFuel (d.data.init_count + 1) d = some (try_enter_standby_forever d) ∧
    loopFuel d.data.init_count d = none ∧
    (try_enter_standby_forever d).data = ⟨0, d.data._number, d.data._other⟩ := by
  obtain ⟨⟨c, a, b⟩⟩ := d
  dsimp only
  refine ⟨?_, ?_, ?_⟩
  · rw [loopFuel_eq, try_enter_standby_forever_eq, if_neg (by omega)]
  · rw [loopFuel_eq, if_pos (Nat.le_refl c)]
  · rw [try_enter_standby_forever_eq]

/-- C10: `send_data`, on any Operate-mode device and any byte sequence,
returns `Ok(())`; it has no failure path, and since it only borrows the
device (the embedding returns no device), the device's payload is untouched
and the device remains usable afterwards. -/
theorem send_data_always_ok (d : Radio .Operate) (bytes : List (Fin 256)) :
    d.send_data bytes = .ok () :=
  rfl

end Lib

/-- C7: the value returned by the `radio.rs` `configure` transition is the
success variant carrying, as the `Configured` state attached to the device,
exactly the configuration payload that was passed in, with the data payload
moved unchanged. -/
theorem configured_carries_config (d : RadioRs.Radio RadioRs.Standby)
    (c : RadioRs.ConfigureData) :
    ∃ r, d.configure c = .ok r ∧ r.state.config = c ∧ r.data = d.data :=
  ⟨⟨d.data, ⟨c⟩⟩, rfl, rfl, rfl⟩

/-- C9: racing a future that completes immediately against one that never
completes resolves, at the very first poll round, to the immediate future's
output tagged with the side it was passed on — `First` when it is the first
argument and `Second` when it is the second. -/
theorem race_immediate_beats_never {A B : Type} (a : A)
    (g : FutureHelper.Fut B) (hg : ∀ n, g n = none) :
    FutureHelper.wait_for_one_to_complete (FutureHelper.ready a) g
      (.First a) ∧
    FutureHelper.wait_for_one_to_complete g (FutureHelper.ready a)
      (.Second a) := by
  constructor
  · exact ⟨0, rfl, fun m hm => absurd hm (Nat.not_lt_zero m)⟩
  · refine ⟨0, ?_, fun m hm => absurd hm (Nat.not_lt_zero m)⟩
    simp [FutureHelper.selectPoll, hg, FutureHelper.ready]

/-- Witness for C9 at a concrete instance: the immediate future producing 3
raced against the never-completing future, in both argument orders. -/
theorem race_immediate_beats_never_witness :
    FutureHelper.wait_for_one_to_complete (FutureHelper.ready 3)
      (FutureHelper.pending Nat) (.First 3) ∧
    FutureHelper.wait_for_one_to_complete (FutureHelper.pending Nat)
      (FutureHelper.ready 3) (.Second 3) :=
  race_immediate_beats_never 3 (FutureHelper.pending Nat) (fun _ => rfl)
